import Mathlib

/-!
Verification of the backup_server session/authorization core.

The Go source is shallowly embedded: the in-memory session store
(`internal/auth`) becomes an association list from token strings to
session records, the SQLite-backed tables (`internal/database`) become
an explicit `DBState` record of row lists with the handlers' queries
translated to pure list functions, time becomes an integer nanosecond
count (Go `time.Time` / `time.Duration` granularity), and the two
genuinely fallible external effects — the crypto random source and the
filesystem — become explicit oracles (`Option`-valued parameters).
-/

namespace BackupServer

/-! ## Data model (internal/auth Session, internal/database rows) -/

/-- `auth.Session`: identity, display name, group-id snapshot and absolute
expiry instant (nanoseconds, mirroring Go `time.Time` comparisons). -/
structure Session where
  userID : Int
  username : String
  groupIDs : List Int
  expires : Int

deriving instance DecidableEq, Repr for Session

/-- `auth.SessionStore.sessions`: the token → session map, as an
association list; Go map insertion is modelled by consing (lookup finds
the newest binding first, matching overwrite semantics). -/
abbrev SessionStore := List (String × Session)

/-- `database.Group` row. -/
structure Group where
  id : Int
  name : String

deriving instance DecidableEq, Repr for Group

/-- `database.File` row. -/
structure DBFile where
  id : Int
  name : String
  filePath : String
  groupID : Int
  description : String

deriving instance DecidableEq, Repr for DBFile

/-- `database.User` row joined with its `user_groups` memberships, as
`DB.GetUserByUsername` returns it. -/
structure DBUser where
  id : Int
  username : String
  passwordHash : String
  groupIDs : List Int

deriving instance DecidableEq, Repr for DBUser

/-- The persistent store: the four relations of the schema. `userGroups`
holds (user_id, group_id) pairs. -/
structure DBState where
  users : List DBUser
  groups : List Group
  userGroups : List (Int × Int)
  files : List DBFile

deriving instance DecidableEq, Repr for DBState

/-! ## Database queries (internal/database/database.go) -/

/-- `DB.GetFileByID`: `SELECT ... FROM files WHERE id = ?`; `sql.ErrNoRows`
when absent is modelled as `none`. -/
def DBState.getFileByID (db : DBState) (fileID : Int) : Option DBFile :=
  db.files.find? (fun f => f.id == fileID)

/-- `DB.UserHasAccessToGroup`: `SELECT COUNT(*) FROM user_groups WHERE
user_id = ? AND group_id = ?`, then `count > 0`. -/
def DBState.userHasAccessToGroup (db : DBState) (userID groupID : Int) : Bool :=
  decide (0 < (db.userGroups.filter (fun p => p.1 == userID && p.2 == groupID)).length)

/-- `DB.GetGroupFileCount`: `SELECT COUNT(*) FROM files WHERE group_id = ?`. -/
def DBState.getGroupFileCount (db : DBState) (groupID : Int) : Nat :=
  (db.files.filter (fun f => f.groupID == groupID)).length

/-- `DB.GetUserByUsername`: row lookup by unique username. -/
def DBState.getUserByUsername (db : DBState) (username : String) : Option DBUser :=
  db.users.find? (fun u => u.username == username)

/-- `DB.DeleteGroup`: `DELETE FROM groups WHERE id = ?`. -/
def DBState.deleteGroupExec (db : DBState) (groupID : Int) : DBState :=
  { db with groups := db.groups.filter (fun g => !(g.id == groupID)) }

/-! ## Session store (internal/auth) -/

/-- Go `1 * time.Hour` in nanoseconds. -/
def hourNs : Int := 3600 * 1000000000

/-- Go `24 * time.Hour` in nanoseconds, the session TTL. -/
def dayNs : Int := 24 * hourNs

/-- Raw map lookup `s.sessions[sessionID]` (first binding wins). -/
def lookupToken (s : SessionStore) (tok : String) : Option Session :=
  match s.find? (fun p => p.1 == tok) with
  | none => none
  | some p => some p.2

/-- Base64 URL-safe alphabet (RFC 4648), as used by Go `base64.URLEncoding`. -/
def b64urlChars : List Char :=
  "ABCDEFGHIJKLMNOPQRSTUVWXYZabcdefghijklmnopqrstuvwxyz0123456789-_".toList

/-- Character at a sextet value. -/
def b64c (n : Nat) : Char := b64urlChars.getD n 'A'

/-- Padded base64url encoding of a byte list, three bytes to four chars,
as Go `base64.URLEncoding.EncodeToString`. -/
def base64urlChunks : List Nat → List Char
  | [] => []
  | [b1] => [b64c ((b1 % 256) / 4), b64c ((b1 % 4) * 16), '=', '=']
  | [b1, b2] =>
      [b64c ((b1 % 256) / 4), b64c ((b1 % 4) * 16 + (b2 % 256) / 16),
       b64c ((b2 % 16) * 4), '=']
  | b1 :: b2 :: b3 :: rest =>
      b64c ((b1 % 256) / 4) :: b64c ((b1 % 4) * 16 + (b2 % 256) / 16)
        :: b64c ((b2 % 16) * 4 + (b3 % 256) / 64) :: b64c (b3 % 64)
        :: base64urlChunks rest

/-- `base64.URLEncoding.EncodeToString(token)`. -/
def base64urlEncode (bytes : List Nat) : String := String.mk (base64urlChunks bytes)

/-- `SessionStore.Create`: reads 32 bytes from the random source (an
oracle `rand`, `none` when `crypto/rand` fails), base64url-encodes them
into the token, and inserts a session expiring at `now + 24h`. -/
def SessionStore.Create (s : SessionStore) (now : Int) (rand : Nat → Option (List Nat))
    (userID : Int) (username : String) (groupIDs : List Int) :
    Except Unit (String × SessionStore) :=
  match rand 32 with
  | none => .error ()
  | some token =>
      let sessionID := base64urlEncode token
      .ok (sessionID, (sessionID, ⟨userID, username, groupIDs, now + dayNs⟩) :: s)

/-- `SessionStore.Get`: absent when the token is unknown or
`session.Expires.Before(now)` (strict comparison). -/
def SessionStore.Get (s : SessionStore) (now : Int) (sessionID : String) : Option Session :=
  match lookupToken s sessionID with
  | none => none
  | some sess => if sess.expires < now then none else some sess

/-- `SessionStore.Delete`: map `delete`, removing every binding of the token. -/
def SessionStore.Delete (s : SessionStore) (sessionID : String) : SessionStore :=
  s.filter (fun p => !(p.1 == sessionID))

/-- One pass of `SessionStore.cleanupExpired`: evicts the entries with
`session.Expires.Before(now)`. -/
def SessionStore.cleanupExpiredOnce (s : SessionStore) (now : Int) : SessionStore :=
  s.filter (fun p => !(decide (p.2.expires < now)))

/-! ## Handlers (internal/handlers) -/

/-- Accumulate decimal digits; any non-digit character fails. -/
def digitsToNat : List Char → Nat → Option Nat
  | [], acc => some acc
  | c :: cs, acc =>
      if c.isDigit then digitsToNat cs (acc * 10 + (c.toNat - 48)) else none

/-- Go `strconv.Atoi`: optional sign then one or more decimal digits
(overflow is irrelevant to the identifiers in play and not modelled). -/
def atoi (s : String) : Option Int :=
  match s.toList with
  | [] => none
  | '+' :: rest =>
      if rest.isEmpty then none else (digitsToNat rest 0).map Int.ofNat
  | '-' :: rest =>
      if rest.isEmpty then none else (digitsToNat rest 0).map (fun n => -(n : Int))
  | l => (digitsToNat l 0).map Int.ofNat

/-- Outcome of `Handler.DownloadFile`, by the HTTP status it writes. -/
inductive FetchResult
  | badRequest
  | notFound
  | forbidden
  | unreadable
  | ok (contents : List Nat)

deriving instance DecidableEq, Repr for FetchResult

/-- `Handler.DownloadFile`: parse the `id` query parameter (400 on
failure), look the file up (404 when absent), gate on
`DB.UserHasAccessToGroup(session.UserID, file.GroupID)` (403 when false),
then open/stat the stored path via the filesystem oracle `fs`
(500 when that fails) and stream the bytes (200). -/
def DownloadFile (db : DBState) (fs : String → Option (List Nat))
    (sess : Session) (idStr : String) : FetchResult :=
  match atoi idStr with
  | none => .badRequest
  | some fileID =>
      match db.getFileByID fileID with
      | none => .notFound
      | some file =>
          if db.userHasAccessToGroup sess.userID file.groupID then
            match fs file.filePath with
            | none => .unreadable
            | some contents => .ok contents
          else .forbidden

/-- `Handler.isAdmin`: fetch all groups (`none` = query error, giving
`false`), then scan for a session group id whose group is named
"admins". -/
def isAdmin (getAllGroupsResult : Option (List Group)) (sess : Session) : Bool :=
  match getAllGroupsResult with
  | none => false
  | some groups =>
      sess.groupIDs.any (fun groupID =>
        groups.any (fun g => g.id == groupID && g.name == "admins"))

/-- The two failure shapes of `DB.ValidateUser`: `sql.ErrNoRows` from
`GetUserByUsername`, and the "invalid password" error after a failed
bcrypt comparison. -/
inductive ValidateErr
  | noSuchUser
  | invalidPassword

deriving instance DecidableEq, Repr for ValidateErr

/-- `DB.ValidateUser`: username lookup then hash comparison; `checkHash
storedHash password` models `bcrypt.CompareHashAndPassword` succeeding. -/
def ValidateUser (db : DBState) (checkHash : String → String → Bool)
    (username password : String) : Except ValidateErr DBUser :=
  match db.getUserByUsername username with
  | none => .error .noSuchUser
  | some user =>
      if checkHash user.passwordHash password then .ok user
      else .error .invalidPassword

/-- Caller-visible outcome of `Handler.Login`. -/
inductive LoginOutcome
  | invalidCredentials
  | sessionFailure
  | redirectToFiles (sessionID : String)

deriving instance DecidableEq, Repr for LoginOutcome

/-- `Handler.Login`: any `ValidateUser` error renders the login page with
the single message "Invalid credentials"; on success a session is minted
from the user's id, name and group snapshot. -/
def Login (db : DBState) (checkHash : String → String → Bool)
    (store : SessionStore) (now : Int) (rand : Nat → Option (List Nat))
    (username password : String) : LoginOutcome × SessionStore :=
  match ValidateUser db checkHash username password with
  | .error _ => (.invalidCredentials, store)
  | .ok user =>
      match SessionStore.Create store now rand user.id user.username user.groupIDs with
      | .error _ => (.sessionFailure, store)
      | .ok (sessionID, newStore) => (.redirectToFiles sessionID, newStore)

/-- Outcome of `Handler.AdminDeleteGroup` past the admin gate. -/
inductive GroupDeleteOutcome
  | conflictFilesAssigned
  | deleted

deriving instance DecidableEq, Repr for GroupDeleteOutcome

/-- `Handler.AdminDeleteGroup` (past the admin gate): `fileCount, _ :=
GetGroupFileCount(groupID)` — when the count query errors the error is
discarded and `fileCount` keeps its zero value, which `countQueryFails`
models; a positive count redirects with the conflict message and leaves
the store untouched, otherwise the group row is deleted. -/
def AdminDeleteGroup (db : DBState) (countQueryFails : Bool) (groupID : Int) :
    GroupDeleteOutcome × DBState :=
  let fileCount := if countQueryFails then 0 else db.getGroupFileCount groupID
  if 0 < fileCount then (.conflictFilesAssigned, db)
  else (.deleted, db.deleteGroupExec groupID)

/-! ## Helper lemmas -/

/-- After `Delete`, the raw map lookup of the deleted token is `none`. -/
theorem lookupToken_Delete_self (s : SessionStore) (tok : String) :
    lookupToken (SessionStore.Delete s tok) tok = none := by
  induction s with
  | nil => rfl
  | cons hd tl ih =>
      by_cases h : hd.1 = tok
      · simpa [SessionStore.Delete, List.filter_cons, h] using ih
      · have hb : (hd.1 == tok) = false := beq_false_of_ne h
        simpa [SessionStore.Delete, List.filter_cons, hb, lookupToken, List.find?_cons] using ih

/-! ## Claims -/

/-- C5: `invalidate` (SessionStore.Delete) is total (it returns a store,
never an error, whatever the prior state of the token), `Delete` followed
by `Get` on the same token returns absent at every time, and `Delete`
twice leaves the store identical to `Delete` once. -/
theorem Delete_idempotent_resolve_absent (s : SessionStore) (tok : String) (now : Int) :
    SessionStore.Get (SessionStore.Delete s tok) now tok = none ∧
    SessionStore.Delete (SessionStore.Delete s tok) tok = SessionStore.Delete s tok := by
  constructor
  · simp [SessionStore.Get, lookupToken_Delete_self]
  · simp [SessionStore.Delete, List.filter_filter]

/-- C9: one pass of the background sweep keeps exactly the entries whose
expiry has not passed at scan time: an entry (token and session record,
verbatim) survives iff it was in the store and its expiry is not strictly
before `now`. -/
theorem cleanup_sweep_exact (s : SessionStore) (now : Int) (entry : String × Session) :
    entry ∈ SessionStore.cleanupExpiredOnce s now ↔
      entry ∈ s ∧ ¬(entry.2.expires < now) := by
  simp [SessionStore.cleanupExpiredOnce, List.mem_filter]

/-- A session whose expiry instant is exactly 100. -/
def c2sess : Session := ⟨1, "u", [1], 100⟩

/-- A store holding `c2sess` under token "tok". -/
def c2store : SessionStore := [("tok", c2sess)]

/-- C2 counterexample: at a time equal to the session's expiry instant,
`Get` still returns the session (the code's `Expires.Before(now)` test is
strict), contradicting "resolving at or after the expiry instant returns
absent". -/
theorem Get_at_expiry_instant_cex :
    c2sess.expires = 100 ∧ SessionStore.Get c2store 100 "tok" = some c2sess := by
  constructor
  · rfl
  · decide

/-- C2 amended: for every stored session, `Get` returns the session at
any time up to and including the expiry instant, returns absent at any
time strictly after it, and returns absent for a token with no stored
session. -/
theorem resolve_expiry (s : SessionStore) (tok : String) (now : Int) :
    (∀ sess, lookupToken s tok = some sess → now ≤ sess.expires →
      SessionStore.Get s now tok = some sess) ∧
    (∀ sess, lookupToken s tok = some sess → sess.expires < now →
      SessionStore.Get s now tok = none) ∧
    (lookupToken s tok = none → SessionStore.Get s now tok = none) := by
  refine ⟨fun sess h hle => ?_, fun sess h hlt => ?_, fun h => ?_⟩
  · simp [SessionStore.Get, h, Int.not_lt.mpr hle]
  · simp [SessionStore.Get, h, hlt]
  · simp [SessionStore.Get, h]

/-- C2 amended witness: the concrete store at times before, at, and after
the expiry instant. -/
theorem resolve_expiry_witness :
    SessionStore.Get c2store 50 "tok" = some c2sess ∧
    SessionStore.Get c2store 101 "tok" = none :=
  ⟨(resolve_expiry c2store "tok" 50).1 c2sess (by decide) (by decide),
   (resolve_expiry c2store "tok" 101).2.1 c2sess (by decide) (by decide)⟩

/-- A session snapshotted at login with group-id set {2}. -/
def c1sess : Session := ⟨1, "user1", [2], 1000⟩

/-- A file owned by group 2. -/
def c1file : DBFile := ⟨1, "R", "/srv/R", 2, ""⟩

/-- Database after the user's live membership in group 2 was revoked
(the `user_groups` relation is empty). -/
def c1dbRevoked : DBState := ⟨[], [], [], [c1file]⟩

/-- Database while the live membership (1, 2) is still present. -/
def c1dbLive : DBState := ⟨[], [], [(1, 2)], [c1file]⟩

/-- Filesystem oracle where every path is readable. -/
def c1fs : String → Option (List Nat) := fun _ => some [7]

/-- C1 counterexample: group 2 is in the session's snapshot, yet the
fetch gate (`DB.UserHasAccessToGroup` on the live `user_groups` table)
denies the fetch after the live membership is revoked, and permits it
while the live row exists — the gate decision is not the snapshot
membership and does change with live membership changes. -/
theorem download_gate_ignores_snapshot_cex :
    c1sess.groupIDs.contains 2 = true ∧
    DBState.userHasAccessToGroup c1dbRevoked c1sess.userID 2 = false ∧
    DownloadFile c1dbRevoked c1fs c1sess "1" = .forbidden ∧
    DownloadFile c1dbLive c1fs c1sess "1" = .ok [7] := by
  refine ⟨by decide, by decide, by decide, by decide⟩

/-- C1 amended: the access decision gating a resource fetch is true iff
the pair (session user id, group id) is currently in the live
`user_groups` relation, and the decision (hence the whole fetch outcome)
is independent of the session's snapshotted group-id set. -/
theorem download_gate_live_membership (db : DBState) (sess : Session)
    (fs : String → Option (List Nat)) (g : Int) (idStr : String) (gids2 : List Int) :
    (db.userHasAccessToGroup sess.userID g = true ↔ (sess.userID, g) ∈ db.userGroups) ∧
    DownloadFile db fs ⟨sess.userID, sess.username, gids2, sess.expires⟩ idStr =
      DownloadFile db fs sess idStr := by
  constructor
  · simp only [DBState.userHasAccessToGroup, decide_eq_true_eq, List.length_pos]
    rw [Ne, List.filter_eq_nil_iff]
    simp only [Bool.and_eq_true, beq_iff_eq, not_forall]
    constructor
    · rintro ⟨p, hp, hne⟩
      rcases not_not.mp (fun hc => hne fun hmem => absurd hmem hc) with ⟨h1, h2⟩
      rcases p with ⟨a, b⟩
      cases h1; cases h2; exact hp
    · intro hmem
      exact ⟨(sess.userID, g), hmem, fun hc => hc ⟨rfl, rfl⟩⟩
  · rfl

/-- C3: the resource-fetch handler's outcome taxonomy: 400 on a
malformed identifier; 404 on an unknown resource for every session (no
authorization consulted); 403 on a failed access check under every
filesystem oracle (no filesystem touch); 500 when open/stat fails after
authorization; 200 with the file bytes otherwise. -/
theorem downloadFile_outcomes (db : DBState) (fs : String → Option (List Nat))
    (sess : Session) (idStr : String) :
    (atoi idStr = none → DownloadFile db fs sess idStr = .badRequest) ∧
    (∀ fid, atoi idStr = some fid → db.getFileByID fid = none →
      ∀ sess2 : Session, DownloadFile db fs sess2 idStr = .notFound) ∧
    (∀ fid file, atoi idStr = some fid → db.getFileByID fid = some file →
      db.userHasAccessToGroup sess.userID file.groupID = false →
      ∀ fs2 : String → Option (List Nat), DownloadFile db fs2 sess idStr = .forbidden) ∧
    (∀ fid file, atoi idStr = some fid → db.getFileByID fid = some file →
      db.userHasAccessToGroup sess.userID file.groupID = true →
      fs file.filePath = none → DownloadFile db fs sess idStr = .unreadable) ∧
    (∀ fid file contents, atoi idStr = some fid → db.getFileByID fid = some file →
      db.userHasAccessToGroup sess.userID file.groupID = true →
      fs file.filePath = some contents → DownloadFile db fs sess idStr = .ok contents) := by
  refine ⟨fun h => ?_, fun fid h1 h2 sess2 => ?_, fun fid file h1 h2 h3 fs2 => ?_,
    fun fid file h1 h2 h3 h4 => ?_, fun fid file contents h1 h2 h3 h4 => ?_⟩
  · simp [DownloadFile, h]
  · simp [DownloadFile, h1, h2]
  · simp [DownloadFile, h1, h2, h3]
  · simp [DownloadFile, h1, h2, h3, h4]
  · simp [DownloadFile, h1, h2, h3, h4]

/-- The file of the fetch scenario, owned by group 2. -/
def c3file : DBFile := ⟨1, "R", "/srv/R", 2, ""⟩

/-- Database with live membership (1, 2) and the single file. -/
def c3db : DBState := ⟨[], [], [(1, 2)], [c3file]⟩

/-- Session of user 1. -/
def c3sess : Session := ⟨1, "user1", [2], 1000⟩

/-- Filesystem oracle serving two bytes at every path. -/
def c3fs : String → Option (List Nat) := fun _ => some [7, 8]

/-- C3 witness: all five outcomes on concrete inputs. -/
theorem downloadFile_outcomes_witness :
    DownloadFile c3db c3fs c3sess "x" = .badRequest ∧
    DownloadFile c3db c3fs c3sess "9" = .notFound ∧
    DownloadFile c3db c3fs ⟨5, "other", [2], 1000⟩ "1" = .forbidden ∧
    DownloadFile c3db (fun _ => none) c3sess "1" = .unreadable ∧
    DownloadFile c3db c3fs c3sess "1" = .ok [7, 8] :=
  ⟨(downloadFile_outcomes c3db c3fs c3sess "x").1 (by decide),
   (downloadFile_outcomes c3db c3fs c3sess "9").2.1 9 (by decide) (by decide) c3sess,
   (downloadFile_outcomes c3db c3fs ⟨5, "other", [2], 1000⟩ "1").2.2.1 1 c3file
     (by decide) (by decide) (by decide) c3fs,
   (downloadFile_outcomes c3db (fun _ => none) c3sess "1").2.2.2.1 1 c3file
     (by decide) (by decide) (by decide) rfl,
   (downloadFile_outcomes c3db c3fs c3sess "1").2.2.2.2 1 c3file [7, 8]
     (by decide) (by decide) (by decide) rfl⟩

/-- C4: with a successful group-table fetch, `isAdmin` is true iff some
session group id is the id of a table group named "admins"; a failed
fetch yields false, and a group id absent from the table contributes
nothing (it simply fails the existential) rather than erroring. -/
theorem isAdmin_iff (groups : List Group) (sess : Session) :
    (isAdmin (some groups) sess = true ↔
      ∃ gid ∈ sess.groupIDs, ∃ g ∈ groups, g.id = gid ∧ g.name = "admins") ∧
    isAdmin none sess = false := by
  constructor
  · simp [isAdmin, List.any_eq_true, Bool.and_eq_true, beq_iff_eq]
  · rfl

/-- C6: when the random source yields bytes (always 32 of them, i.e. 256
bits), `Create` returns the base64url encoding of exactly those bytes as
the token and inserts a session whose expiry is `now + dayNs` with
`dayNs` exactly 24 hours in nanoseconds; `Create` errors exactly when
the random source fails. -/
theorem create_token_spec (s : SessionStore) (now : Int) (rand : Nat → Option (List Nat))
    (uid : Int) (uname : String) (gids : List Int)
    (hlen : ∀ bs, rand 32 = some bs → bs.length = 32) :
    (∀ bs, rand 32 = some bs →
      SessionStore.Create s now rand uid uname gids =
        .ok (base64urlEncode bs,
             (base64urlEncode bs, ⟨uid, uname, gids, now + dayNs⟩) :: s) ∧
      256 ≤ 8 * bs.length) ∧
    (rand 32 = none → SessionStore.Create s now rand uid uname gids = .error ()) ∧
    dayNs = 24 * 60 * 60 * 1000000000 := by
  refine ⟨fun bs h => ⟨?_, ?_⟩, fun h => ?_, by norm_num [dayNs, hourNs]⟩
  · simp [SessionStore.Create, h]
  · rw [hlen bs h]
  · simp [SessionStore.Create, h]

/-- A random source delivering all-zero bytes. -/
def c6rand : Nat → Option (List Nat) := fun n => some (List.replicate n 0)

/-- C6 witness: creation with a concrete 32-byte random draw. -/
theorem create_token_spec_witness :
    SessionStore.Create [] 0 c6rand 1 "admin" [1] =
      .ok (base64urlEncode (List.replicate 32 0),
           [(base64urlEncode (List.replicate 32 0), ⟨1, "admin", [1], 0 + dayNs⟩)]) ∧
    256 ≤ 8 * (List.replicate 32 (0 : Nat)).length :=
  (create_token_spec [] 0 c6rand 1 "admin" [1]
      (fun bs h => by
        simp only [c6rand] at h
        cases h
        simp)).1 (List.replicate 32 0) rfl

/-- The file count for a group is positive iff some file row references
the group. -/
theorem getGroupFileCount_pos (db : DBState) (g : Int) :
    0 < db.getGroupFileCount g ↔ ∃ f ∈ db.files, f.groupID = g := by
  simp only [DBState.getGroupFileCount]
  rw [List.length_pos, Ne, List.filter_eq_nil_iff]
  push_neg
  simp [beq_iff_eq]

/-- C7: group deletion is refused with the conflict outcome and the
whole database (in particular the group table) left untouched while any
file references the group; once no file references it, the same request
deletes the group row. -/
theorem deleteGroup_refused_while_referenced (db : DBState) (g : Int) :
    ((∃ f ∈ db.files, f.groupID = g) →
      AdminDeleteGroup db false g = (.conflictFilesAssigned, db)) ∧
    ((∀ f ∈ db.files, f.groupID ≠ g) →
      AdminDeleteGroup db false g = (.deleted, db.deleteGroupExec g)) := by
  constructor
  · intro h
    have hc : 0 < db.getGroupFileCount g := (getGroupFileCount_pos db g).mpr h
    simp [AdminDeleteGroup, hc]
  · intro h
    have hc : ¬0 < db.getGroupFileCount g := by
      rw [getGroupFileCount_pos]
      rintro ⟨f, hf, he⟩
      exact h f hf he
    simp [AdminDeleteGroup, hc]

/-- File referencing group 2 in the deletion scenario. -/
def c7file : DBFile := ⟨1, "R", "/srv/R", 2, ""⟩

/-- Database where group 2 still has a file assigned. -/
def c7db : DBState := ⟨[], [⟨2, "g2"⟩], [], [c7file]⟩

/-- The same database after the file was deleted. -/
def c7dbAfter : DBState := ⟨[], [⟨2, "g2"⟩], [], []⟩

/-- C7 witness: concrete refusal while referenced, concrete success
afterwards. -/
theorem deleteGroup_refused_while_referenced_witness :
    AdminDeleteGroup c7db false 2 = (.conflictFilesAssigned, c7db) ∧
    AdminDeleteGroup c7dbAfter false 2 = (.deleted, c7dbAfter.deleteGroupExec 2) :=
  ⟨(deleteGroup_refused_while_referenced c7db 2).1 ⟨c7file, by decide, rfl⟩,
   (deleteGroup_refused_while_referenced c7dbAfter 2).2 (by decide)⟩

/-- C8: a login with an unknown identifier and a login with a known
identifier but failing hash comparison produce the identical
caller-visible outcome (the "Invalid credentials" page) with the store
untouched; the two responses are equal, so the causes cannot be told
apart from the response. -/
theorem login_indistinguishable (db : DBState) (checkHash : String → String → Bool)
    (store : SessionStore) (now : Int) (rand : Nat → Option (List Nat))
    (u1 p1 u2 p2 : String) (usr : DBUser)
    (h1 : db.getUserByUsername u1 = none)
    (h2 : db.getUserByUsername u2 = some usr)
    (h3 : checkHash usr.passwordHash p2 = false) :
    Login db checkHash store now rand u1 p1 = (.invalidCredentials, store) ∧
    Login db checkHash store now rand u2 p2 = (.invalidCredentials, store) ∧
    Login db checkHash store now rand u1 p1 = Login db checkHash store now rand u2 p2 := by
  have e1 : Login db checkHash store now rand u1 p1 = (.invalidCredentials, store) := by
    simp [Login, ValidateUser, h1]
  have e2 : Login db checkHash store now rand u2 p2 = (.invalidCredentials, store) := by
    simp [Login, ValidateUser, h2, h3]
  exact ⟨e1, e2, e1.trans e2.symm⟩

/-- The stored user of the login scenario. -/
def c8usr : DBUser := ⟨1, "user1", "secret", [2]⟩

/-- Database with that single user. -/
def c8db : DBState := ⟨[c8usr], [], [], []⟩

/-- Hash-comparison model: the stored hash verifies exactly its own
preimage string. -/
def c8check : String → String → Bool := fun h p => h == p

/-- Unavailable random source (never reached on these paths). -/
def c8rand : Nat → Option (List Nat) := fun _ => none

/-- C8 witness: unknown identifier vs. wrong secret on concrete data. -/
theorem login_indistinguishable_witness :
    Login c8db c8check [] 0 c8rand "ghost" "pw" = (.invalidCredentials, []) ∧
    Login c8db c8check [] 0 c8rand "user1" "wrong" = (.invalidCredentials, []) :=
  have h := login_indistinguishable c8db c8check [] 0 c8rand "ghost" "pw" "user1" "wrong"
    c8usr (by decide) (by decide) (by decide)
  ⟨h.1, h.2.1⟩

/-- C10: when the dependent-file count query fails, the error is
discarded and the count reads as zero, so the deletion proceeds even
though a file still references the group — the very state in which a
successful count query makes the handler refuse. -/
theorem deleteGroup_count_error_ignored (db : DBState) (g : Int)
    (h : ∃ f ∈ db.files, f.groupID = g) :
    AdminDeleteGroup db true g = (.deleted, db.deleteGroupExec g) ∧
    AdminDeleteGroup db false g = (.conflictFilesAssigned, db) := by
  constructor
  · simp [AdminDeleteGroup]
  · have hc : 0 < db.getGroupFileCount g := (getGroupFileCount_pos db g).mpr h
    simp [AdminDeleteGroup, hc]

/-- File referencing group 2 while the count query errors. -/
def c10file : DBFile := ⟨1, "R", "/srv/R", 2, ""⟩

/-- Database with group 2 and its file. -/
def c10db : DBState := ⟨[], [⟨2, "g2"⟩], [], [c10file]⟩

/-- C10 witness: deletion proceeds under a failed count query on the
concrete database, and is refused when the query succeeds. -/
theorem deleteGroup_count_error_ignored_witness :
    AdminDeleteGroup c10db true 2 = (.deleted, c10db.deleteGroupExec 2) ∧
    AdminDeleteGroup c10db false 2 = (.conflictFilesAssigned, c10db) :=
  deleteGroup_count_error_ignored c10db 2 ⟨c10file, by decide, rfl⟩

end BackupServer
